import Mathlib

/-!
# Verification of the OpenBB `Account` session state machine

Shallow embedding of `openbb_platform/core/openbb_core/app/static/account.py`.
The `Account` class orchestrates four operations (`login`, `save`, `refresh`,
`logout`) over the current in-memory `UserSettings`, a persisted session file
(`.hub_session.json`) and a remote hub reached through `HubService`.

The collaborators `HubService`, `UserService`, `LoggingService`, `HubSession`
and `UserSettings` are not part of the source tree that is being verified:
only `account.py` is.  Those collaborators are therefore modelled from the
specification (each such definition carries a doc comment starting with
`Modelled from the spec:`); `account.py` itself is embedded line by line.

The remote hub is modelled as an environment `HubEnv` of response functions,
so theorems quantify over every possible behaviour of the remote service.
Side effects (remote calls, file reads/writes, audit records) are recorded in
an event trace, and every mutation of the session file is a trace event, so
that intermediate observable file states during an operation can be stated.
-/

namespace OpenBB

/-- Modelled from the spec: `HubSession` is an opaque token bundle returned by
successful remote authentication (access token, refresh token, token type,
expiry); immutable once issued.  The class itself lives outside the verified
sources (`openbb_core.app.model.hub.hub_session`). -/
structure HubSession where
  access_token : String
  refresh_token : String
  token_type : String
  expiry : Nat
deriving DecidableEq, Repr

/-- Modelled from the spec: the profile component of `UserSettings`, which
optionally owns a `HubSession` (`UserSettings.profile.hub_session`); the state
is Connected exactly when the session is present. -/
structure Profile where
  hub_session : Option HubSession
deriving DecidableEq, Repr

/-- Modelled from the spec: the authoritative record of the current user —
an identity field `id`, a profile (optionally embedding a `HubSession`),
credentials and preferences.  The class itself lives outside the verified
sources (`openbb_core.app.model.user_settings`). -/
structure UserSettings where
  id : String
  profile : Profile
  credentials : String
  preferences : String
deriving DecidableEq, Repr

/-- Modelled from the spec: the observable content of the persisted session
file.  The stored bytes either deserialize into a valid `HubSession`
(`valid`) or they do not (`corrupt`, carrying the raw bytes); an empty file —
e.g. one that has just been truncated by `open(file, "w")` — is `corrupt ""`.
-/
inductive SessionFileContent where
  | valid (s : HubSession)
  | corrupt (bytes : String)
deriving DecidableEq, Repr

/-- Errors as raised by the Python code.  `openbb msg` is
`OpenBBError(msg)` raised directly by `account.py`; `openbbWrap e` is the
`OpenBBError(e)` produced by the `_log_account_command` wrapper around a
failing operation, carrying the original error `e` as cause; `jsonDecode` is
the `json.JSONDecodeError` / pydantic validation failure raised when the
session file bytes do not parse into a `HubSession`; `hubErr` stands for any
error raised by the remote hub boundary. -/
inductive PyErr where
  | openbb (msg : String)
  | openbbWrap (cause : PyErr)
  | jsonDecode (bytes : String)
  | hubErr (msg : String)
deriving DecidableEq, Repr

/-- Observable side effects of an operation, in program order.  Remote events
correspond to the four hub RPCs; file events record every mutation of the
persisted session file (`fileTruncate` is the truncation performed by
`open(file, "w")`, `fileWriteSession` the subsequent `json.dump`); store
events are the local default-settings store boundary; `audit` is the
`LoggingService.log` record emitted by `_log_account_command`, carrying the
route and the logged kwargs. -/
inductive Event where
  | remoteConnect
  | remotePull
  | remotePush
  | remoteDisconnect
  | fileRead
  | fileTruncate
  | fileWriteSession (s : HubSession)
  | fileDelete
  | readDefaultStore
  | writeDefaultStore
  | audit (route : String) (kwargs : List (String × String))
deriving DecidableEq, Repr

/-- `true` exactly on the four remote-hub RPC events. -/
def Event.isRemote : Event → Bool
  | .remoteConnect => true
  | .remotePull => true
  | .remotePush => true
  | .remoteDisconnect => true
  | _ => false

/-- `true` exactly on audit events. -/
def Event.isAudit : Event → Bool
  | .audit _ _ => true
  | _ => false

/-- Modelled from the spec: the remote hub as an opaque service — its
responses to authenticate, pull and push are arbitrary functions, so theorems
quantify over every remote behaviour. -/
structure HubEnv where
  authResult : Option String → Option String → Option String → Except PyErr HubSession
  pullResult : HubSession → Except PyErr UserSettings
  pushResult : HubSession → UserSettings → Except PyErr Unit

/-- Modelled from the spec: `HubService` wraps a connection to the hub and
owns the live session once connected (`session` is `none` for a client that
never connected). -/
structure HubService where
  session : Option HubSession
deriving DecidableEq, Repr

/-- Modelled from the spec: `connect(email, password, pat)` authenticates via
credentials or token and installs the resulting live session; it fails with
the remote service's error when authentication is rejected. -/
def HubService.connect (env : HubEnv) (email password pat : Option String) :
    Except PyErr HubService × List Event :=
  match env.authResult email password pat with
  | .error e => (.error e, [.remoteConnect])
  | .ok s => (.ok ⟨some s⟩, [.remoteConnect])

/-- Modelled from the spec: `pull()` fetches the remote-canonical settings
for the connected identity; it fails with `NotConnectedError` when the client
has no live session. -/
def HubService.pull (env : HubEnv) (hs : HubService) :
    Except PyErr UserSettings × List Event :=
  match hs.session with
  | none => (.error (.openbb "Not connected to hub."), [])
  | some s => (env.pullResult s, [.remotePull])

/-- Modelled from the spec: `push(settings)` uploads local settings as the
new remote-canonical state; same failure modes as pull. -/
def HubService.push (env : HubEnv) (hs : HubService) (settings : UserSettings) :
    Except PyErr Unit × List Event :=
  match hs.session with
  | none => (.error (.openbb "Not connected to hub."), [])
  | some s => (env.pushResult s settings, [.remotePush])

/-- Modelled from the spec: `disconnect()` invalidates the session
server-side (best-effort) and is idempotent; it does not fail. -/
def HubService.disconnect (_hs : HubService) : List Event :=
  [.remoteDisconnect]

/-- Modelled from the spec: `UserService.update_default(incoming)` realises
the reconciler's `mergeIncoming` — it returns a settings object equal to the
remote-pulled one ("remote is authoritative on pull"). -/
def UserService.update_default (incoming : UserSettings) : UserSettings :=
  incoming

/-- The mutable state `account.py` acts on: the current in-memory
`UserSettings` held by the command runner, the persisted session file
(`none` when absent), and the local default-settings store that
`UserService.read_default_user_settings` / `write_default_user_settings`
read and write. -/
structure AppState where
  user_settings : UserSettings
  session_file : Option SessionFileContent
  default_store : UserSettings
deriving DecidableEq, Repr

/-- Modelled from the spec: `UserService.read_default_user_settings()`
returns the baseline settings from the local default store. -/
def UserService.read_default_user_settings (st : AppState) : UserSettings :=
  st.default_store

/-- The uniform result of an account operation: the Python return value (or
the propagated exception), the final state, and the trace of observable
events in program order. -/
def OpResult (α : Type) := Except PyErr α × AppState × List Event

/-- Embeds `Account._create_hub_service`: when email, password and pat are
all `None`, the persisted session file is consulted — absence raises
`OpenBBError("Session not found.")` without touching the remote, and content
that does not parse raises the parse error; otherwise a fresh `HubService`
is connected with the supplied credentials and the file is never read. -/
def Account.create_hub_service (env : HubEnv) (st : AppState)
    (email password pat : Option String) :
    Except PyErr HubService × List Event :=
  if email.isNone && password.isNone && pat.isNone then
    match st.session_file with
    | none => (.error (.openbb "Session not found."), [])
    | some (.corrupt bytes) => (.error (.jsonDecode bytes), [.fileRead])
    | some (.valid hub_session) => (.ok ⟨some hub_session⟩, [.fileRead])
  else
    HubService.connect env email password pat

/-- Embeds the `_log_account_command` decorator: run the body; wrap any
exception into `OpenBBError(e)` with the original as cause; in all cases
(`finally`) emit exactly one audit record for route `/account/<name>` with
empty kwargs — "don't want any credentials being logged by accident" — before
the result or exception reaches the caller. -/
def Account.log_account_command (name : String) (r : OpResult α) : OpResult α :=
  let auditEv : Event := .audit ("/account/" ++ name) []
  match r with
  | (.ok a, st, evs) => (.ok a, st, evs ++ [auditEv])
  | (.error e, st, evs) => (.error (.openbbWrap e), st, evs ++ [auditEv])

/-- Embeds the body of `Account.login`: resolve a hub service (credentials /
token / stored session), `pull()`, install `update_default(incoming)` as the
current settings, and if `remember_me` persist the live session — the code
opens the session file with mode `"w"` (truncating it), only then checks
`hs.session`, raising `OpenBBError("Not connected to hub.")` if absent, and
otherwise `json.dump`s the session. -/
def Account.login_body (env : HubEnv) (st : AppState)
    (email password pat : Option String)
    (remember_me return_settings : Bool) : OpResult (Option UserSettings) :=
  match Account.create_hub_service env st email password pat with
  | (.error e, evs) => (.error e, st, evs)
  | (.ok hs, evs₁) =>
    match HubService.pull env hs with
    | (.error e, evs₂) => (.error e, st, evs₁ ++ evs₂)
    | (.ok incoming, evs₂) =>
      let updated := UserService.update_default incoming
      let st₁ := { st with user_settings := updated }
      if remember_me then
        let stT := { st₁ with session_file := some (.corrupt "") }
        match hs.session with
        | none =>
          (.error (.openbb "Not connected to hub."), stT,
            evs₁ ++ evs₂ ++ [.fileTruncate])
        | some s =>
          let st₂ := { st₁ with session_file := some (.valid s) }
          (.ok (if return_settings then some st₂.user_settings else none), st₂,
            evs₁ ++ evs₂ ++ [.fileTruncate, .fileWriteSession s])
      else
        (.ok (if return_settings then some st₁.user_settings else none), st₁,
          evs₁ ++ evs₂)

/-- `Account.login` as seen by the caller: the body under
`_log_account_command`. -/
def Account.login (env : HubEnv) (st : AppState)
    (email password pat : Option String)
    (remember_me return_settings : Bool) : OpResult (Option UserSettings) :=
  Account.log_account_command "login"
    (Account.login_body env st email password pat remember_me return_settings)

/-- Embeds the body of `Account.save`: Anonymous (no
`profile.hub_session`) writes the current settings to the local default
store; Connected resumes a `HubService` from the current session and
`push`es the current settings. -/
def Account.save_body (env : HubEnv) (st : AppState)
    (return_settings : Bool) : OpResult (Option UserSettings) :=
  match st.user_settings.profile.hub_session with
  | none =>
    let st₁ := { st with default_store := st.user_settings }
    (.ok (if return_settings then some st₁.user_settings else none), st₁,
      [.writeDefaultStore])
  | some hub_session =>
    let hs : HubService := ⟨some hub_session⟩
    match HubService.push env hs st.user_settings with
    | (.error e, evs) => (.error e, st, evs)
    | (.ok _, evs) =>
      (.ok (if return_settings then some st.user_settings else none), st, evs)

/-- `Account.save` as seen by the caller. -/
def Account.save (env : HubEnv) (st : AppState)
    (return_settings : Bool) : OpResult (Option UserSettings) :=
  Account.log_account_command "save" (Account.save_body env st return_settings)

/-- Embeds the body of `Account.refresh`: Anonymous replaces the current
settings with the default local settings; Connected resumes a client from
the current session, `pull()`s, applies `update_default`, then forces
`updated.id` back to the current settings' id before installing. -/
def Account.refresh_body (env : HubEnv) (st : AppState)
    (return_settings : Bool) : OpResult (Option UserSettings) :=
  match st.user_settings.profile.hub_session with
  | none =>
    let st₁ := { st with user_settings := UserService.read_default_user_settings st }
    (.ok (if return_settings then some st₁.user_settings else none), st₁,
      [.readDefaultStore])
  | some hub_session =>
    let hs : HubService := ⟨some hub_session⟩
    match HubService.pull env hs with
    | (.error e, evs) => (.error e, st, evs)
    | (.ok incoming, evs) =>
      let updated := UserService.update_default incoming
      let updated₂ := { updated with id := st.user_settings.id }
      let st₁ := { st with user_settings := updated₂ }
      (.ok (if return_settings then some st₁.user_settings else none), st₁, evs)

/-- `Account.refresh` as seen by the caller. -/
def Account.refresh (env : HubEnv) (st : AppState)
    (return_settings : Bool) : OpResult (Option UserSettings) :=
  Account.log_account_command "refresh" (Account.refresh_body env st return_settings)

/-- Embeds the body of `Account.logout`: Anonymous raises
`OpenBBError("Not connected to hub.")`; Connected resumes a client,
`disconnect()`s, unlinks the session file if it exists, and replaces the
current settings with the default local settings. -/
def Account.logout_body (_env : HubEnv) (st : AppState)
    (return_settings : Bool) : OpResult (Option UserSettings) :=
  match st.user_settings.profile.hub_session with
  | none => (.error (.openbb "Not connected to hub."), st, [])
  | some hub_session =>
    let hs : HubService := ⟨some hub_session⟩
    let evs₁ := HubService.disconnect hs
    let evs₂ := if st.session_file.isSome then [Event.fileDelete] else []
    let st₁ := { st with
      session_file := none
      user_settings := UserService.read_default_user_settings st }
    (.ok (if return_settings then some st₁.user_settings else none), st₁,
      evs₁ ++ evs₂)

/-- `Account.logout` as seen by the caller. -/
def Account.logout (env : HubEnv) (st : AppState)
    (return_settings : Bool) : OpResult (Option UserSettings) :=
  Account.log_account_command "logout" (Account.logout_body env st return_settings)

/-- The sequence of session-file states a concurrent reader could observe
while an operation runs: the initial content followed by the content after
each file-mutating event of the trace, in program order. -/
def fileStatesDuring (initial : Option SessionFileContent) :
    List Event → List (Option SessionFileContent)
  | [] => [initial]
  | ev :: rest =>
    match ev with
    | .fileTruncate => initial :: fileStatesDuring (some (.corrupt "")) rest
    | .fileWriteSession s => initial :: fileStatesDuring (some (.valid s)) rest
    | .fileDelete => initial :: fileStatesDuring none rest
    | _ => fileStatesDuring initial rest

/-! ## Concrete sample values used by witnesses -/

/-- A sample live hub session. -/
def sampleSession : HubSession :=
  { access_token := "at", refresh_token := "rt", token_type := "bearer", expiry := 100 }

/-- A distinct, older hub session (old content of the session file). -/
def oldSession : HubSession :=
  { access_token := "old", refresh_token := "old", token_type := "bearer", expiry := 1 }

/-- The settings the sample remote hub serves on `pull`, with identity `"Y"`. -/
def sampleRemote : UserSettings :=
  { id := "Y", profile := { hub_session := some sampleSession },
    credentials := "remote-creds", preferences := "remote-prefs" }

/-- Baseline local settings with no remote session. -/
def sampleDefaults : UserSettings :=
  { id := "default", profile := { hub_session := none },
    credentials := "", preferences := "" }

/-- A sample remote hub that authenticates to `sampleSession` and serves
`sampleRemote` on pull. -/
def sampleEnv : HubEnv :=
  { authResult := fun _ _ _ => .ok sampleSession
    pullResult := fun _ => .ok sampleRemote
    pushResult := fun _ _ => .ok () }

/-- A sample Connected state: current settings with identity `"X"` holding
`sampleSession`, a persisted session file with the older session, anonymous
defaults. -/
def sampleConnected : AppState :=
  { user_settings :=
      { id := "X", profile := { hub_session := some sampleSession },
        credentials := "local-creds", preferences := "local-prefs" }
    session_file := some (.valid oldSession)
    default_store := sampleDefaults }

/-- A sample remote hub that is down: authentication, pull and push all
fail, so operations against it exercise the failure paths. -/
def failEnv : HubEnv :=
  { authResult := fun _ _ _ => .error (.hubErr "auth down")
    pullResult := fun _ => .error (.hubErr "hub down")
    pushResult := fun _ _ => .error (.hubErr "hub down") }

/-- A sample Anonymous state with no persisted session file. -/
def sampleAnonymous : AppState :=
  { user_settings :=
      { id := "A", profile := { hub_session := none },
        credentials := "anon-creds", preferences := "anon-prefs" }
    session_file := none
    default_store := sampleDefaults }

/-! ## Claims -/

/-- C1: Refresh preserves identity — in a Connected state with current id
`X`, if the remote pull returns settings `remote` (whose id may be any `Y`),
then after `refresh()` the installed current settings are exactly `remote`
with its id forced back to `X`: identity preserved, all other fields from the
remote pull. -/
theorem refresh_preserves_identity (env : HubEnv) (st : AppState)
    (s : HubSession) (remote : UserSettings) (rs : Bool)
    (hconn : st.user_settings.profile.hub_session = some s)
    (hpull : env.pullResult s = .ok remote) :
    (Account.refresh env st rs).2.1.user_settings =
      { remote with id := st.user_settings.id } ∧
    (Account.refresh env st rs).2.1.user_settings.id = st.user_settings.id := by
  simp [Account.refresh, Account.refresh_body, Account.log_account_command,
    HubService.pull, hconn, hpull, UserService.update_default]

/-- Witness for C1 at the sample Connected state and sample hub: the pull
returns id `"Y"`, refresh installs it with id `"X"`. -/
theorem refresh_preserves_identity_witness :
    (Account.refresh sampleEnv sampleConnected true).2.1.user_settings =
      { sampleRemote with id := sampleConnected.user_settings.id } ∧
    (Account.refresh sampleEnv sampleConnected true).2.1.user_settings.id =
      sampleConnected.user_settings.id :=
  refresh_preserves_identity sampleEnv sampleConnected sampleSession sampleRemote
    true rfl rfl

/-- C3: Login without credentials requires a session file — with email,
password and pat all `None` and no persisted session file, `login()` fails
with the wrapped `OpenBBError("Session not found.")`, the state is untouched,
and the trace holds no remote event (only the audit record). -/
theorem login_no_credentials_requires_session_file (env : HubEnv)
    (st : AppState) (rm rs : Bool) (hfile : st.session_file = none) :
    Account.login env st none none none rm rs =
      (.error (.openbbWrap (.openbb "Session not found.")), st,
        [.audit "/account/login" []]) := by
  simp [Account.login, Account.login_body, Account.log_account_command,
    Account.create_hub_service, hfile]

/-- Witness for C3 at the sample Anonymous state (no session file). -/
theorem login_no_credentials_requires_session_file_witness :
    Account.login sampleEnv sampleAnonymous none none none false false =
      (.error (.openbbWrap (.openbb "Session not found.")), sampleAnonymous,
        [.audit "/account/login" []]) :=
  login_no_credentials_requires_session_file sampleEnv sampleAnonymous
    false false rfl

/-- C5: Login does not preserve identity — whenever `login()` resolves a
connected hub service and the pull returns `remote` with id `Y`, the settings
installed as current are exactly `remote`, so their id is `Y` whatever the id
of the previous current settings was. -/
theorem login_remote_authoritative (env : HubEnv) (st : AppState)
    (email password pat : Option String) (s : HubSession)
    (remote : UserSettings) (rm rs : Bool) (evs : List Event)
    (hcreate : Account.create_hub_service env st email password pat =
      (.ok ⟨some s⟩, evs))
    (hpull : env.pullResult s = .ok remote) :
    (Account.login env st email password pat rm rs).2.1.user_settings =
      remote ∧
    (Account.login env st email password pat rm rs).2.1.user_settings.id =
      remote.id := by
  cases rm <;>
    simp [Account.login, Account.login_body, Account.log_account_command,
      HubService.pull, hcreate, hpull, UserService.update_default]

/-- Witness for C5: logging in with a pat from the sample Connected state
whose current id is `"X"` installs the pulled settings with id `"Y"`. -/
theorem login_remote_authoritative_witness :
    (Account.login sampleEnv sampleConnected none none (some "T") false
        false).2.1.user_settings = sampleRemote ∧
    (Account.login sampleEnv sampleConnected none none (some "T") false
        false).2.1.user_settings.id = sampleRemote.id :=
  login_remote_authoritative sampleEnv sampleConnected none none (some "T")
    sampleSession sampleRemote false false [.remoteConnect] rfl rfl

/-- C8: Corrupt session is not absence — with no credentials and a session
file whose bytes do not parse, `login()` fails with the wrapped parse error,
which is distinct from the wrapped `OpenBBError("Session not found.")`. -/
theorem corrupt_session_not_absence (env : HubEnv) (st : AppState)
    (bytes : String) (rm rs : Bool)
    (hfile : st.session_file = some (.corrupt bytes)) :
    (Account.login env st none none none rm rs).1 =
      .error (.openbbWrap (.jsonDecode bytes)) ∧
    PyErr.openbbWrap (.jsonDecode bytes) ≠
      PyErr.openbbWrap (.openbb "Session not found.") := by
  constructor
  · simp [Account.login, Account.login_body, Account.log_account_command,
      Account.create_hub_service, hfile]
  · simp

/-- Witness for C8 at a state whose session file holds unparseable bytes. -/
theorem corrupt_session_not_absence_witness :
    (Account.login sampleEnv
        { sampleAnonymous with session_file := some (.corrupt "not json") }
        none none none false false).1 =
      .error (.openbbWrap (.jsonDecode "not json")) ∧
    PyErr.openbbWrap (.jsonDecode "not json") ≠
      PyErr.openbbWrap (.openbb "Session not found.") :=
  corrupt_session_not_absence sampleEnv
    { sampleAnonymous with session_file := some (.corrupt "not json") }
    "not json" false false rfl

/-- C10: Partial credentials bypass the session file — as soon as at least
one of email, password, pat is supplied, `_create_hub_service` is exactly a
`connect` with the supplied arguments: the session file is never read, the
result does not depend on the session file at all, and the trace is the
single remote-connect event. -/
theorem partial_credentials_bypass_session_file (env : HubEnv)
    (st : AppState) (email password pat : Option String)
    (h : (email.isNone && password.isNone && pat.isNone) = false) :
    Account.create_hub_service env st email password pat =
      HubService.connect env email password pat ∧
    (Account.create_hub_service env st email password pat).2 =
      [.remoteConnect] ∧
    Event.fileRead ∉ (Account.create_hub_service env st email password pat).2 ∧
    ∀ file : Option SessionFileContent,
      Account.create_hub_service env { st with session_file := file }
          email password pat =
        Account.create_hub_service env st email password pat := by
  refine ⟨?_, ?_, ?_, ?_⟩ <;>
    simp [Account.create_hub_service, HubService.connect, h] <;>
    rcases env.authResult email password pat with e | s <;> simp

/-- Witness for C10: supplying only an email (no password, no pat) from a
state that does have a session file still goes through `connect`. -/
theorem partial_credentials_bypass_session_file_witness :
    Account.create_hub_service sampleEnv sampleConnected (some "e") none none =
      HubService.connect sampleEnv (some "e") none none ∧
    (Account.create_hub_service sampleEnv sampleConnected (some "e") none
        none).2 = [.remoteConnect] ∧
    Event.fileRead ∉
      (Account.create_hub_service sampleEnv sampleConnected (some "e") none
        none).2 ∧
    ∀ file : Option SessionFileContent,
      Account.create_hub_service sampleEnv
          { sampleConnected with session_file := file } (some "e") none none =
        Account.create_hub_service sampleEnv sampleConnected (some "e") none
          none :=
  partial_credentials_bypass_session_file sampleEnv sampleConnected
    (some "e") none none rfl

/-- C2: Idempotent logout — from a Connected state (and defaults that carry
no remote session) the first `logout()` succeeds, performs the remote
disconnect (the trace contains the disconnect RPC), leaves the session file
absent whatever it held before, and installs the default local settings,
which are Anonymous; calling `logout()` again on the resulting state, and
`logout()` on any Anonymous state, fails with the wrapped
`OpenBBError("Not connected to hub.")`. -/
theorem logout_idempotent (env env' : HubEnv) (st : AppState)
    (s : HubSession) (rs rs' : Bool)
    (hconn : st.user_settings.profile.hub_session = some s)
    (hdef : st.default_store.profile.hub_session = none) :
    (Account.logout env st rs).1 =
      .ok (if rs then some st.default_store else none) ∧
    Event.remoteDisconnect ∈ (Account.logout env st rs).2.2 ∧
    (Account.logout env st rs).2.1.session_file = none ∧
    (Account.logout env st rs).2.1.user_settings = st.default_store ∧
    (Account.logout env st rs).2.1.user_settings.profile.hub_session = none ∧
    (Account.logout env' (Account.logout env st rs).2.1 rs').1 =
      .error (.openbbWrap (.openbb "Not connected to hub.")) ∧
    ∀ st₂ : AppState, st₂.user_settings.profile.hub_session = none →
      (Account.logout env' st₂ rs').1 =
        .error (.openbbWrap (.openbb "Not connected to hub.")) := by
  refine ⟨?_, ?_, ?_, ?_, ?_, ?_, fun st₂ h => ?_⟩ <;>
    simp [Account.logout, Account.logout_body, Account.log_account_command,
      UserService.read_default_user_settings, HubService.disconnect,
      hconn, hdef, *]

/-- Witness for C2 at the sample Connected state, whose session file exists
before the first logout. -/
theorem logout_idempotent_witness :
    (Account.logout sampleEnv sampleConnected true).1 =
      .ok (if true then some sampleConnected.default_store else none) ∧
    Event.remoteDisconnect ∈ (Account.logout sampleEnv sampleConnected true).2.2 ∧
    (Account.logout sampleEnv sampleConnected true).2.1.session_file = none ∧
    (Account.logout sampleEnv sampleConnected true).2.1.user_settings =
      sampleConnected.default_store ∧
    (Account.logout sampleEnv sampleConnected
        true).2.1.user_settings.profile.hub_session = none ∧
    (Account.logout sampleEnv (Account.logout sampleEnv sampleConnected
        true).2.1 false).1 =
      .error (.openbbWrap (.openbb "Not connected to hub.")) ∧
    ∀ st₂ : AppState, st₂.user_settings.profile.hub_session = none →
      (Account.logout sampleEnv st₂ false).1 =
        .error (.openbbWrap (.openbb "Not connected to hub.")) :=
  logout_idempotent sampleEnv sampleEnv sampleConnected sampleSession
    true false rfl rfl

/-- C7: Anonymous save/refresh never contacts remote — in an Anonymous
state, `save()` succeeds and only writes the current settings to the local
default store, `refresh()` succeeds and only replaces the current settings
with the default local settings, and neither operation's trace contains any
remote event. -/
theorem anonymous_save_refresh_local_only (env env' : HubEnv)
    (st : AppState) (rs rs' : Bool)
    (hanon : st.user_settings.profile.hub_session = none) :
    (Account.save env st rs).1 =
      .ok (if rs then some st.user_settings else none) ∧
    (Account.save env st rs).2.1 =
      { st with default_store := st.user_settings } ∧
    ((Account.save env st rs).2.2.all fun ev => !ev.isRemote) = true ∧
    (Account.refresh env' st rs').1 =
      .ok (if rs' then some st.default_store else none) ∧
    (Account.refresh env' st rs').2.1 =
      { st with user_settings := st.default_store } ∧
    ((Account.refresh env' st rs').2.2.all fun ev => !ev.isRemote) = true := by
  refine ⟨?_, ?_, ?_, ?_, ?_, ?_⟩ <;>
    simp [Account.save, Account.save_body, Account.refresh,
      Account.refresh_body, Account.log_account_command,
      UserService.read_default_user_settings, Event.isRemote, hanon]

/-- Witness for C7 at the sample Anonymous state. -/
theorem anonymous_save_refresh_local_only_witness :
    (Account.save sampleEnv sampleAnonymous true).1 =
      .ok (if true then some sampleAnonymous.user_settings else none) ∧
    (Account.save sampleEnv sampleAnonymous true).2.1 =
      { sampleAnonymous with
        default_store := sampleAnonymous.user_settings } ∧
    ((Account.save sampleEnv sampleAnonymous true).2.2.all
      fun ev => !ev.isRemote) = true ∧
    (Account.refresh sampleEnv sampleAnonymous true).1 =
      .ok (if true then some sampleAnonymous.default_store else none) ∧
    (Account.refresh sampleEnv sampleAnonymous true).2.1 =
      { sampleAnonymous with
        user_settings := sampleAnonymous.default_store } ∧
    ((Account.refresh sampleEnv sampleAnonymous true).2.2.all
      fun ev => !ev.isRemote) = true :=
  anonymous_save_refresh_local_only sampleEnv sampleEnv sampleAnonymous
    true true rfl

/-- C6 (code bug): the session-file write of a remember-me `login()` is not
atomic — the code opens the file with mode `"w"`, truncating it in place,
before `json.dump` writes the new session (and before the `hs.session` check
can raise), so during the operation a reader observes an empty file.  At the
sample input the observable file states include `corrupt ""`, which is
neither the old content (the persisted `oldSession`) nor the new content
(the freshly written session), even though the operation itself succeeds. -/
theorem session_file_write_truncates_in_place :
    some (SessionFileContent.corrupt "") ∈
      fileStatesDuring sampleConnected.session_file
        (Account.login sampleEnv sampleConnected none none (some "T") true
          false).2.2 ∧
    sampleConnected.session_file ≠ some (SessionFileContent.corrupt "") ∧
    (Account.login sampleEnv sampleConnected none none (some "T") true
        false).2.1.session_file ≠ some (SessionFileContent.corrupt "") ∧
    (Account.login sampleEnv sampleConnected none none (some "T") true
        false).1 = .ok none := by
  refine ⟨by decide, by decide, by decide, rfl⟩

/-! ## The operation-boundary contract (audit + error wrapping) -/

/-- The contract `_log_account_command` provides at the boundary of an
operation named `name`, relating the operation's body result `body` to the
caller-visible result `r`: the trace holds exactly one audit record, it
names the route `/account/<name>` and carries no argument payload (in
particular no credentials), it is the last event of the trace (so any error
reaches the caller only after the audit fired), a succeeding body's value
passes through unchanged, and a failing body's error `e` reaches the caller
as exactly the single wrapper `OpenBBError(e)` — the original error as the
wrapper's cause. -/
def auditSpec (name : String) (body r : OpResult α) : Prop :=
  r.2.2.filter Event.isAudit = [Event.audit ("/account/" ++ name) []] ∧
  r.2.2.getLast? = some (Event.audit ("/account/" ++ name) []) ∧
  (∀ a, body.1 = .ok a → r.1 = .ok a) ∧
  (∀ e, body.1 = .error e → r.1 = .error (PyErr.openbbWrap e))

/-- `_create_hub_service` emits no audit event. -/
theorem create_hub_service_audit_free (env : HubEnv) (st : AppState)
    (email password pat : Option String) :
    (Account.create_hub_service env st email password pat).2.filter
      Event.isAudit = [] := by
  unfold Account.create_hub_service HubService.connect
  split
  · rcases st.session_file with _ | (s | b) <;> rfl
  · rcases env.authResult email password pat with e | s <;> rfl

/-- `pull` emits no audit event. -/
theorem pull_audit_free (env : HubEnv) (hs : HubService) :
    (HubService.pull env hs).2.filter Event.isAudit = [] := by
  obtain ⟨_ | s⟩ := hs <;> rfl

/-- `push` emits no audit event. -/
theorem push_audit_free (env : HubEnv) (hs : HubService)
    (settings : UserSettings) :
    (HubService.push env hs settings).2.filter Event.isAudit = [] := by
  obtain ⟨_ | s⟩ := hs <;> rfl

/-- The body of `login` emits no audit event (the record comes from the
decorator alone). -/
theorem login_body_audit_free (env : HubEnv) (st : AppState)
    (email password pat : Option String) (rm rs : Bool) :
    (Account.login_body env st email password pat rm rs).2.2.filter
      Event.isAudit = [] := by
  have hc := create_hub_service_audit_free env st email password pat
  unfold Account.login_body
  rcases h : Account.create_hub_service env st email password pat with ⟨r, evs⟩
  rw [h] at hc
  dsimp only at hc
  rcases r with e | hs
  · exact hc
  · dsimp only
    have hp := pull_audit_free env hs
    rcases h₂ : HubService.pull env hs with ⟨r₂, evs₂⟩
    rw [h₂] at hp
    dsimp only at hp
    rcases r₂ with e | incoming
    · simp [List.filter_append, hc, hp]
    · obtain ⟨_ | s⟩ := hs <;> cases rm <;>
        simp [List.filter_append, hc, hp, Event.isAudit]

/-- The body of `save` emits no audit event. -/
theorem save_body_audit_free (env : HubEnv) (st : AppState) (rs : Bool) :
    (Account.save_body env st rs).2.2.filter Event.isAudit = [] := by
  unfold Account.save_body
  rcases st.user_settings.profile.hub_session with _ | s
  · rfl
  · dsimp only
    have hp := push_audit_free env ⟨some s⟩ st.user_settings
    rcases h : HubService.push env ⟨some s⟩ st.user_settings with ⟨r, evs⟩
    rw [h] at hp
    dsimp only at hp
    rcases r with e | u <;> exact hp

/-- The body of `refresh` emits no audit event. -/
theorem refresh_body_audit_free (env : HubEnv) (st : AppState) (rs : Bool) :
    (Account.refresh_body env st rs).2.2.filter Event.isAudit = [] := by
  unfold Account.refresh_body
  rcases st.user_settings.profile.hub_session with _ | s
  · rfl
  · dsimp only
    have hp := pull_audit_free env ⟨some s⟩
    rcases h : HubService.pull env ⟨some s⟩ with ⟨r, evs⟩
    rw [h] at hp
    dsimp only at hp
    rcases r with e | incoming <;> exact hp

/-- The body of `logout` emits no audit event. -/
theorem logout_body_audit_free (env : HubEnv) (st : AppState) (rs : Bool) :
    (Account.logout_body env st rs).2.2.filter Event.isAudit = [] := by
  unfold Account.logout_body
  rcases st.user_settings.profile.hub_session with _ | s
  · rfl
  · rcases st.session_file with _ | c <;>
      simp [HubService.disconnect, Event.isAudit]

/-- `_log_account_command` establishes the boundary contract over any body
whose own trace is audit-free. -/
theorem log_account_command_auditSpec (name : String) (r : OpResult α)
    (h : r.2.2.filter Event.isAudit = []) :
    auditSpec name r (Account.log_account_command name r) := by
  rcases r with ⟨res, st, evs⟩
  simp only at h
  rcases res with e | a
  · refine ⟨?_, ?_, fun a' ha' => ?_, fun e' he' => ?_⟩
    · simp [Account.log_account_command, List.filter_append, h, Event.isAudit]
    · simp [Account.log_account_command, List.getLast?_append_cons]
    · exact absurd ha' (by simp)
    · have : e = e' := by simpa using he'
      simp [Account.log_account_command, this]
  · refine ⟨?_, ?_, fun a' ha' => ?_, fun e' he' => ?_⟩
    · simp [Account.log_account_command, List.filter_append, h, Event.isAudit]
    · simp [Account.log_account_command, List.getLast?_append_cons]
    · have : a = a' := by simpa using ha'
      simp [Account.log_account_command, this]
    · exact absurd he' (by simp)

/-- C4: Operation-boundary failure contract — for each of the four
operations, under every remote behaviour and every state, the trace holds
exactly one audit record naming the operation's route with an empty (hence
credential-free) payload, the record is the last event (so it has fired
before any error reaches the caller), a succeeding body's value reaches the
caller unchanged, and a body failing with error `e` surfaces to the caller
as exactly the single wrapped `OpenBBError(e)` — the original error as its
cause. -/
theorem operation_boundary_contract (env : HubEnv) (st : AppState)
    (email password pat : Option String) (rm rs : Bool) :
    auditSpec "login"
      (Account.login_body env st email password pat rm rs)
      (Account.login env st email password pat rm rs) ∧
    auditSpec "save" (Account.save_body env st rs)
      (Account.save env st rs) ∧
    auditSpec "refresh" (Account.refresh_body env st rs)
      (Account.refresh env st rs) ∧
    auditSpec "logout" (Account.logout_body env st rs)
      (Account.logout env st rs) :=
  ⟨log_account_command_auditSpec "login" _
      (login_body_audit_free env st email password pat rm rs),
    log_account_command_auditSpec "save" _ (save_body_audit_free env st rs),
    log_account_command_auditSpec "refresh" _
      (refresh_body_audit_free env st rs),
    log_account_command_auditSpec "logout" _
      (logout_body_audit_free env st rs)⟩

/-- Witness for C4 at the failing hub and the sample Connected state: there
login, save and refresh all fail (auth, push and pull are down), so the
failure half of the contract — audit fired, original error wrapped — is
exercised, while logout still succeeds (best-effort disconnect). -/
theorem operation_boundary_contract_witness :
    auditSpec "login"
      (Account.login_body failEnv sampleConnected none none (some "T") false
        false)
      (Account.login failEnv sampleConnected none none (some "T") false
        false) ∧
    auditSpec "save" (Account.save_body failEnv sampleConnected false)
      (Account.save failEnv sampleConnected false) ∧
    auditSpec "refresh" (Account.refresh_body failEnv sampleConnected false)
      (Account.refresh failEnv sampleConnected false) ∧
    auditSpec "logout" (Account.logout_body failEnv sampleConnected false)
      (Account.logout failEnv sampleConnected false) :=
  operation_boundary_contract failEnv sampleConnected none none (some "T")
    false false

/-- C9: All-or-nothing settings commit — for every `login()` (any
credentials, any remote behaviour, any initial state, Anonymous included)
and every Connected `refresh()`, the current settings after the operation
are either exactly the settings before it (untouched, as on a failure
before the install) or exactly the fully reconciled result of a successful
pull; no other settings object is ever installed. -/
theorem settings_commit_all_or_nothing (env : HubEnv) (st : AppState)
    (email password pat : Option String) (rm rs rs' : Bool) :
    ((Account.login env st email password pat rm rs).2.1.user_settings =
        st.user_settings ∨
      ∃ s' incoming, env.pullResult s' = .ok incoming ∧
        (Account.login env st email password pat rm
            rs).2.1.user_settings = UserService.update_default incoming) ∧
    (∀ s, st.user_settings.profile.hub_session = some s →
      ((Account.refresh env st rs').2.1.user_settings = st.user_settings ∨
        ∃ incoming, env.pullResult s = .ok incoming ∧
          (Account.refresh env st rs').2.1.user_settings =
            { UserService.update_default incoming with
              id := st.user_settings.id })) := by
  constructor
  · rcases h : Account.create_hub_service env st email password pat with ⟨r, evs⟩
    rcases r with e | hs
    · left
      simp [Account.login, Account.login_body, Account.log_account_command, h]
    · obtain ⟨_ | s'⟩ := hs
      · left
        simp [Account.login, Account.login_body, Account.log_account_command,
          HubService.pull, h]
      · rcases hp : env.pullResult s' with e | incoming
        · left
          simp [Account.login, Account.login_body,
            Account.log_account_command, HubService.pull, h, hp]
        · right
          refine ⟨s', incoming, hp, ?_⟩
          cases rm <;>
            simp [Account.login, Account.login_body,
              Account.log_account_command, HubService.pull, h, hp]
  · intro s hconn
    rcases hp : env.pullResult s with e | incoming
    · left
      simp [Account.refresh, Account.refresh_body,
        Account.log_account_command, HubService.pull, hconn, hp]
    · right
      refine ⟨incoming, rfl, ?_⟩
      simp [Account.refresh, Account.refresh_body,
        Account.log_account_command, HubService.pull, hconn, hp]

/-- Witness for C9 at the sample Connected state and sample hub: the login
installs the pulled settings and the refresh installs them with the
preserved id. -/
theorem settings_commit_all_or_nothing_witness :
    ((Account.login sampleEnv sampleConnected (some "e") none none false
          false).2.1.user_settings = sampleConnected.user_settings ∨
      ∃ s' incoming, sampleEnv.pullResult s' = .ok incoming ∧
        (Account.login sampleEnv sampleConnected (some "e") none none false
            false).2.1.user_settings = UserService.update_default incoming) ∧
    (∀ s, sampleConnected.user_settings.profile.hub_session = some s →
      ((Account.refresh sampleEnv sampleConnected
            true).2.1.user_settings = sampleConnected.user_settings ∨
        ∃ incoming, sampleEnv.pullResult s = .ok incoming ∧
          (Account.refresh sampleEnv sampleConnected
              true).2.1.user_settings =
            { UserService.update_default incoming with
              id := sampleConnected.user_settings.id })) :=
  settings_commit_all_or_nothing sampleEnv sampleConnected
    (some "e") none none false false true

end OpenBB
